import Mathlib

/-!
Shallow embedding of the clock-divider and sample-rate configuration logic of
the C-SKY I2S controller driver (src/addons/sound/soc/csky/csky-i2s.c).

The embedding models the fields of `struct csky_i2s` that the divider
calculators read and write, the five calculator functions, and the
orchestrator `csky_i2s_set_clk_rate` in the fixed-source-clock configuration
(the optional upstream-clock reprogramming branch guarded by
`IS_ERR_OR_NULL(i2s->i2s_clk)` calls into the kernel clk framework, an
external collaborator; with a fixed `clock-frequency` property that branch
is skipped).

C `unsigned int` arithmetic on clock values is modelled with `Nat`; the one
place where a 32-bit wraparound can matter on in-range inputs — the
multiplications `8 * i2s->sclk_fs_divider` and `4 * i2s->sclk_fs_divider`
of a device-tree-supplied 32-bit value — carries an explicit `% 2^32`.
The C idiom `unsigned / ... - 1` assigned to a signed `int` yields `-1`
when the quotient is zero (two's-complement conversion); it is modelled as
`(quotient : Int) - 1`.

The driver reports every failure as `-EINVAL`, but each failure site has a
distinct diagnostic message; the error type below names the failure sites
(matching the error taxonomy of the driver messages).
-/

/-- Audio format values that `csky_i2s_set_fmt` can store into
`i2s->audio_fmt` (`SND_SOC_DAIFMT_I2S`, `SND_SOC_DAIFMT_LEFT_J`,
`SND_SOC_DAIFMT_RIGHT_J`). -/
inductive AudioFmt where
  | i2s
  | left_j
  | right_j
deriving DecidableEq

/-- Failure sites of the divider calculators, one per distinct `dev_err`
message / rejection site in the C code. -/
inductive CskyErr where
  /-- "mclk is not a multiple of fs" (csky-i2s.c line 82) -/
  | clockRatioError
  /-- "invalid mclk_fs_div" / "mclk != 8*sclk" / "mclk != 4*sclk"
  (lines 91, 99, 104) -/
  | invalidRatioError
  /-- "mclk mismatch!" (line 117) -/
  | clockMismatchError
  /-- default case of the rate switch in `csky_i2s_calc_refclk_div`
  (line 184) -/
  | unsupportedRateError
deriving DecidableEq

instance (ε α : Type) [DecidableEq ε] [DecidableEq α] :
    DecidableEq (Except ε α) := fun a b =>
  match a, b with
  | .ok x, .ok y => decidable_of_iff (x = y) (by simp)
  | .error x, .error y => decidable_of_iff (x = y) (by simp)
  | .ok _, .error _ => isFalse (fun h => Except.noConfusion h)
  | .error _, .ok _ => isFalse (fun h => Except.noConfusion h)

/-- Divider registers written by `csky_i2s_set_clk_rate`
(IIS_DIV0_LEVEL .. IIS_DIV4_LEVEL). -/
inductive Reg where
  | div0
  | div1
  | div2
  | div3
  | div4
deriving DecidableEq

/-- The fields of `struct csky_i2s` read or written by the clock-divider
calculators. -/
structure CskyI2s where
  /-- Source clock frequency feeding the first divider (`i2s->src_clk`). -/
  src_clk : Nat
  /-- Master clock frequency, set by `csky_i2s_set_dai_sysclk`
  (`i2s->mclk`). -/
  mclk : Nat
  /-- Requested sample rate (`i2s->sample_rate`). -/
  sample_rate : Nat
  /-- Audio format, set by `csky_i2s_set_fmt` (`i2s->audio_fmt`). -/
  audio_fmt : AudioFmt
  /-- Generation flag: `true` for csky,i2s-v1.1 (explicit mclk-to-sclk
  divider), `false` for csky,i2s-v1 (`i2s->params.has_mclk_sclk_div`). -/
  has_mclk_sclk_div : Bool
  /-- Cached mclk : fs ratio (`i2s->mclk_fs_divider`). -/
  mclk_fs_divider : Nat
  /-- Cached sclk : fs ratio (`i2s->sclk_fs_divider`); initially read from
  the optional `sclk-fs-divider` device-tree property. -/
  sclk_fs_divider : Nat
deriving DecidableEq

/-- Generation-specific ratio check of `csky_i2s_calc_mclk_div`
(csky-i2s.c lines 88-108): for v1.1 the mclk:fs ratio must be one of
256/384/512/768; for v1 it must equal `8 * sclk_fs_divider` (I2S or
left-justified format) or `4 * sclk_fs_divider` (otherwise), the
multiplication performed in 32-bit unsigned arithmetic. -/
def mclkRatioOk (i2s : CskyI2s) (mclk_fs_div : Nat) : Bool :=
  if i2s.has_mclk_sclk_div then
    (mclk_fs_div == 256) || (mclk_fs_div == 384) ||
    (mclk_fs_div == 512) || (mclk_fs_div == 768)
  else if (i2s.audio_fmt == .i2s) || (i2s.audio_fmt == .left_j) then
    mclk_fs_div == (8 * i2s.sclk_fs_divider) % 4294967296
  else
    mclk_fs_div == (4 * i2s.sclk_fs_divider) % 4294967296

/-- The quotient `i2s->src_clk / 2 / mclk` computed at csky-i2s.c line 113
(two successive unsigned divisions). -/
def mclk_div_q (i2s : CskyI2s) : Nat := i2s.src_clk / 2 / i2s.mclk

/-- Embedding of `csky_i2s_calc_mclk_div` (csky-i2s.c lines 71-125).
Returns the state (mutated at line 110 once the ratio checks pass) together
with the divider or the failure site. -/
def csky_i2s_calc_mclk_div (i2s : CskyI2s) (rate word_size : Nat) :
    CskyI2s × Except CskyErr Int :=
  let mclk := i2s.mclk
  if mclk % rate ≠ 0 then
    (i2s, .error .clockRatioError)
  else if mclkRatioOk i2s (mclk / rate) = false then
    (i2s, .error .invalidRatioError)
  else
    let i2s' := { i2s with mclk_fs_divider := mclk / rate }
    let div : Int := (mclk_div_q i2s : Int) - 1
    if 0 ≤ div then
      let tmp := i2s.src_clk / (2 * (div + 1)).toNat
      if tmp ≠ mclk then
        (i2s', .error .clockMismatchError)
      else
        (i2s', .ok div)
    else
      (i2s', .ok div)

/-- Embedding of `csky_i2s_calc_spdifclk_div` (lines 127-133): the
hardcoded SPDIF divider. -/
def csky_i2s_calc_spdifclk_div (i2s : CskyI2s) (rate word_size : Nat) :
    Int :=
  17

/-- Embedding of `csky_i2s_calc_fs_div` (lines 135-148): fixes
sclk = 64 * fs (mutating `i2s->sclk_fs_divider`) and returns
`64 / 2 - 1 = 31`. -/
def csky_i2s_calc_fs_div (i2s : CskyI2s) (word_size : Nat) :
    CskyI2s × Int :=
  let multi : Nat := 64
  let i2s' := { i2s with sclk_fs_divider := multi }
  let div : Int := (multi / 2 : Nat) - 1
  (i2s', div)

/-- Embedding of `csky_i2s_calc_sclk_div` (lines 150-160). -/
def csky_i2s_calc_sclk_div (i2s : CskyI2s) : Int :=
  let multi := i2s.mclk_fs_divider / i2s.sclk_fs_divider
  (multi / 2 : Nat) - 1

/-- Reference clock selected by the rate switch of
`csky_i2s_calc_refclk_div` (lines 167-185): 3.072 MHz for the 48k family,
2.1168 MHz for the 44.1k family, none otherwise. -/
def refClkFor (rate : Nat) : Option Nat :=
  if rate = 8000 ∨ rate = 16000 ∨ rate = 32000 ∨ rate = 48000 ∨
     rate = 96000 then
    some 3072000
  else if rate = 11025 ∨ rate = 22050 ∨ rate = 44100 ∨ rate = 88200 then
    some 2116800
  else
    none

/-- Embedding of `csky_i2s_calc_refclk_div` (lines 162-190). -/
def csky_i2s_calc_refclk_div (i2s : CskyI2s) (rate : Nat) :
    Except CskyErr Int :=
  match refClkFor rate with
  | none => .error .unsupportedRateError
  | some ref_clk => .ok ((i2s.src_clk / 2 / ref_clk : Nat) - 1 : Int)

/-- Embedding of `csky_i2s_set_clk_rate` (lines 192-257) in the
fixed-source-clock configuration. Returns the final state together with
`some` list of divider register writes (in program order) on success, or
`none` when the request aborts with `-EINVAL` (any calculator error, and
any negative divider value). -/
def csky_i2s_set_clk_rate (i2s : CskyI2s) (rate word_size : Nat) :
    CskyI2s × Option (List (Reg × Int)) :=
  let i2s1 := { i2s with sample_rate := rate }
  let fsres := csky_i2s_calc_fs_div i2s1 word_size
  let i2s2 := fsres.1
  let fs_div := fsres.2
  if fs_div < 0 then
    (i2s2, none)
  else
    let mres := csky_i2s_calc_mclk_div i2s2 rate word_size
    let i2s3 := mres.1
    match mres.2 with
    | .error _ => (i2s3, none)
    | .ok mclk_div =>
      if mclk_div < 0 then
        (i2s3, none)
      else if i2s3.has_mclk_sclk_div ∧ csky_i2s_calc_sclk_div i2s3 < 0 then
        (i2s3, none)
      else
        let spdifclk_div := csky_i2s_calc_spdifclk_div i2s3 rate word_size
        if spdifclk_div < 0 then
          (i2s3, none)
        else
          match csky_i2s_calc_refclk_div i2s3 rate with
          | .error _ => (i2s3, none)
          | .ok refclk_div =>
            if refclk_div < 0 then
              (i2s3, none)
            else
              (i2s3, some ([(Reg.div0, mclk_div),
                            (Reg.div1, spdifclk_div),
                            (Reg.div2, fs_div),
                            (Reg.div3, refclk_div)] ++
                (if i2s3.has_mclk_sclk_div then
                  [(Reg.div4, csky_i2s_calc_sclk_div i2s3)]
                 else [])))

/-- The state on which `csky_i2s_calc_mclk_div` runs inside a
`csky_i2s_set_clk_rate` request: line 225 stores the requested rate and
`csky_i2s_calc_fs_div` (called at line 227, before the mclk calculator)
stores `sclk_fs_divider = 64`. -/
def requestState (i2s : CskyI2s) (rate : Nat) : CskyI2s :=
  { i2s with sample_rate := rate, sclk_fs_divider := 64 }

/-! ### General lemmas about the calculators -/

/-- Once both checks pass, the calculator records the mclk:fs ratio into the
state (csky-i2s.c line 110), whatever the divider computation then does. -/
theorem calc_mclk_div_state_pass (i2s : CskyI2s) (rate word_size : Nat)
    (hm : i2s.mclk % rate = 0)
    (hr : mclkRatioOk i2s (i2s.mclk / rate) = true) :
    (csky_i2s_calc_mclk_div i2s rate word_size).1 =
      { i2s with mclk_fs_divider := i2s.mclk / rate } := by
  simp only [csky_i2s_calc_mclk_div, hm, hr]
  rw [if_neg (by simp), if_neg (by simp)]
  split <;> (try split) <;> rfl

/-- The mclk-divider calculator mutates only `mclk_fs_divider`, and only
after the multiple check and the generation-specific ratio check pass. -/
theorem calc_mclk_div_state (i2s : CskyI2s) (rate word_size : Nat) :
    (csky_i2s_calc_mclk_div i2s rate word_size).1 = i2s ∨
    (csky_i2s_calc_mclk_div i2s rate word_size).1 =
      { i2s with mclk_fs_divider := i2s.mclk / rate } := by
  by_cases h1 : i2s.mclk % rate = 0
  · by_cases h2 : mclkRatioOk i2s (i2s.mclk / rate) = true
    · exact Or.inr (calc_mclk_div_state_pass i2s rate word_size h1 h2)
    · left
      simp [csky_i2s_calc_mclk_div, h1, h2]
  · left
    simp [csky_i2s_calc_mclk_div, h1]

/-! ### Claim theorems -/

/-- C8: the frame-sync divider calculator returns 31 for every input state
and every word size: its result never depends on the word-size argument. -/
theorem calc_fs_div_returns_31 (i2s : CskyI2s) (word_size : Nat) :
    (csky_i2s_calc_fs_div i2s word_size).2 = 31 := rfl

/-- C7: the reference-clock divider calculator maps rates
8000/16000/32000/48000/96000 to the 3,072,000 Hz reference clock and rates
11025/22050/44100/88200 to the 2,116,800 Hz reference clock, fails with
`unsupportedRateError` for every other rate, and for supported rates
returns `sourceClockHz / (2 * referenceClockHz) - 1` with no round-trip
validation of the result. -/
theorem calc_refclk_div_spec (i2s : CskyI2s) (rate : Nat) :
    csky_i2s_calc_refclk_div i2s rate =
      if rate = 8000 ∨ rate = 16000 ∨ rate = 32000 ∨ rate = 48000 ∨
         rate = 96000 then
        .ok ((i2s.src_clk / (2 * 3072000) : Nat) - 1 : Int)
      else if rate = 11025 ∨ rate = 22050 ∨ rate = 44100 ∨
              rate = 88200 then
        .ok ((i2s.src_clk / (2 * 2116800) : Nat) - 1 : Int)
      else
        .error .unsupportedRateError := by
  by_cases h1 : rate = 8000 ∨ rate = 16000 ∨ rate = 32000 ∨ rate = 48000 ∨
      rate = 96000
  · simp [csky_i2s_calc_refclk_div, refClkFor, h1, Nat.div_div_eq_div_mul]
  · by_cases h2 : rate = 11025 ∨ rate = 22050 ∨ rate = 44100 ∨ rate = 88200
    · simp [csky_i2s_calc_refclk_div, refClkFor, h1, h2,
        Nat.div_div_eq_div_mul]
    · simp [csky_i2s_calc_refclk_div, refClkFor, h1, h2]

/-- C4: for every requested rate, when the master clock is not an exact
multiple of the rate the mclk-divider calculator fails with
`clockRatioError` before computing any divider (the state is returned
untouched); when it is an exact multiple, this particular error does not
occur. -/
theorem calc_mclk_div_mclk_multiple_check (i2s : CskyI2s)
    (rate word_size : Nat) :
    (i2s.mclk % rate ≠ 0 →
      csky_i2s_calc_mclk_div i2s rate word_size =
        (i2s, .error .clockRatioError)) ∧
    (i2s.mclk % rate = 0 →
      (csky_i2s_calc_mclk_div i2s rate word_size).2 ≠
        .error .clockRatioError) := by
  constructor
  · intro h
    simp [csky_i2s_calc_mclk_div, h]
  · intro h
    simp only [csky_i2s_calc_mclk_div, h]
    rw [if_neg (by simp)]
    split <;> (try split) <;> (try split) <;> simp

/-- Witness for C4: with mclk = 10,000,000 and rate = 48,000 the calculator
fails with `clockRatioError` and leaves the state unchanged. -/
theorem calc_mclk_div_mclk_multiple_check_witness :
    csky_i2s_calc_mclk_div ⟨24576000, 10000000, 0, .i2s, true, 0, 0⟩
        48000 16 =
      (⟨24576000, 10000000, 0, .i2s, true, 0, 0⟩,
        .error .clockRatioError) :=
  (calc_mclk_div_mclk_multiple_check _ 48000 16).1 (by decide)

/-- C2: for generation v1.1 the mclk-divider calculator fails with
`invalidRatioError` exactly when the ratio mclk / rate is not one of
256, 384, 512, 768. -/
theorem calc_mclk_div_v1_1_ratio_check (i2s : CskyI2s)
    (rate word_size : Nat)
    (hgen : i2s.has_mclk_sclk_div = true)
    (hm : i2s.mclk % rate = 0) :
    ((csky_i2s_calc_mclk_div i2s rate word_size).2 =
        .error .invalidRatioError ↔
      ¬(i2s.mclk / rate = 256 ∨ i2s.mclk / rate = 384 ∨
        i2s.mclk / rate = 512 ∨ i2s.mclk / rate = 768)) := by
  by_cases hr : mclkRatioOk i2s (i2s.mclk / rate) = true
  · have hset : i2s.mclk / rate = 256 ∨ i2s.mclk / rate = 384 ∨
        i2s.mclk / rate = 512 ∨ i2s.mclk / rate = 768 := by
      have h2 := hr
      simp [mclkRatioOk, hgen] at h2
      tauto
    simp only [csky_i2s_calc_mclk_div, hm, hr]
    rw [if_neg (by simp), if_neg (by simp)]
    split <;> (try split) <;> simp [hset]
  · have hrf : mclkRatioOk i2s (i2s.mclk / rate) = false := by
      simpa using hr
    have hset : ¬(i2s.mclk / rate = 256 ∨ i2s.mclk / rate = 384 ∨
        i2s.mclk / rate = 512 ∨ i2s.mclk / rate = 768) := by
      have h2 := hrf
      simp [mclkRatioOk, hgen] at h2
      tauto
    simp [csky_i2s_calc_mclk_div, hm, hrf, hset]

/-- Witness for C2: a v1.1 state with mclk / rate = 100 is rejected with
`invalidRatioError`. -/
theorem calc_mclk_div_v1_1_ratio_check_witness :
    (csky_i2s_calc_mclk_div ⟨24576000, 4800000, 0, .i2s, true, 0, 0⟩
        48000 16).2 = .error .invalidRatioError :=
  (calc_mclk_div_v1_1_ratio_check ⟨24576000, 4800000, 0, .i2s, true, 0, 0⟩
    48000 16 rfl (by decide)).mpr (by decide)

/-- C3: for generation v1 the mclk-divider calculator requires
mclk / rate = 8 * sclk_fs_divider for the I2S and left-justified formats
and mclk / rate = 4 * sclk_fs_divider for the right-justified format;
any other ratio fails with `invalidRatioError` (stated for states whose
`sclk_fs_divider` does not overflow the 32-bit multiplication). -/
theorem calc_mclk_div_v1_ratio_check (i2s : CskyI2s)
    (rate word_size : Nat)
    (hgen : i2s.has_mclk_sclk_div = false)
    (hm : i2s.mclk % rate = 0)
    (hb : 8 * i2s.sclk_fs_divider < 4294967296) :
    ((i2s.audio_fmt = .i2s ∨ i2s.audio_fmt = .left_j →
      ((csky_i2s_calc_mclk_div i2s rate word_size).2 =
          .error .invalidRatioError ↔
        i2s.mclk / rate ≠ 8 * i2s.sclk_fs_divider)) ∧
     (i2s.audio_fmt = .right_j →
      ((csky_i2s_calc_mclk_div i2s rate word_size).2 =
          .error .invalidRatioError ↔
        i2s.mclk / rate ≠ 4 * i2s.sclk_fs_divider))) := by
  have hb4 : 4 * i2s.sclk_fs_divider < 4294967296 := by omega
  constructor
  · intro hfmt
    by_cases he : i2s.mclk / rate = 8 * i2s.sclk_fs_divider
    · have hr : mclkRatioOk i2s (i2s.mclk / rate) = true := by
        rcases hfmt with h | h <;>
          simp [mclkRatioOk, hgen, h, Nat.mod_eq_of_lt hb, he]
      simp only [csky_i2s_calc_mclk_div, hm, hr]
      rw [if_neg (by simp), if_neg (by simp)]
      split <;> (try split) <;> simp [he]
    · have hrf : mclkRatioOk i2s (i2s.mclk / rate) = false := by
        rcases hfmt with h | h <;>
          simp [mclkRatioOk, hgen, h, Nat.mod_eq_of_lt hb, he]
      simp [csky_i2s_calc_mclk_div, hm, hrf, he]
  · intro hfmt
    by_cases he : i2s.mclk / rate = 4 * i2s.sclk_fs_divider
    · have hr : mclkRatioOk i2s (i2s.mclk / rate) = true := by
        simp [mclkRatioOk, hgen, hfmt, Nat.mod_eq_of_lt hb4, he]
      simp only [csky_i2s_calc_mclk_div, hm, hr]
      rw [if_neg (by simp), if_neg (by simp)]
      split <;> (try split) <;> simp [he]
    · have hrf : mclkRatioOk i2s (i2s.mclk / rate) = false := by
        simp [mclkRatioOk, hgen, hfmt, Nat.mod_eq_of_lt hb4, he]
      simp [csky_i2s_calc_mclk_div, hm, hrf, he]

/-- Witness for C3: a v1 state in I2S format with sclk_fs_divider = 64 and
mclk / rate = 256 ≠ 8 * 64 is rejected with `invalidRatioError`. -/
theorem calc_mclk_div_v1_ratio_check_witness :
    (csky_i2s_calc_mclk_div ⟨24576000, 12288000, 0, .i2s, false, 0, 64⟩
        48000 16).2 = .error .invalidRatioError :=
  ((calc_mclk_div_v1_ratio_check ⟨24576000, 12288000, 0, .i2s, false, 0, 64⟩
      48000 16 rfl (by decide) (by decide)).1 (Or.inl rfl)).mpr (by decide)

/-- Projection fact: the in-request state keeps the master clock. -/
theorem requestState_mclk (i2s : CskyI2s) (rate : Nat) :
    (requestState i2s rate).mclk = i2s.mclk := rfl

/-- Projection fact: the in-request state keeps the divider quotient. -/
theorem mclk_div_q_requestState (i2s : CskyI2s) (rate : Nat) :
    mclk_div_q (requestState i2s rate) = mclk_div_q i2s := rfl

/-- C1 counterexample: with src_clk = 25,000,000 Hz, mclk = 12,288,000 Hz
and rate = 48,000 Hz the preconditions of the claim hold (mclk is a
multiple of the rate, the v1.1 ratio 256 is valid, and the candidate
divider 0 is non-negative), yet the reconstructed clock
25,000,000 / 2 = 12,500,000 differs from mclk, so the calculator fails
with `clockMismatchError` instead of succeeding: the round-trip check does
not succeed for all such inputs. -/
theorem calc_mclk_div_roundtrip_can_fail :
    (12288000 % 48000 = 0) ∧
    mclkRatioOk ⟨25000000, 12288000, 0, .i2s, true, 0, 0⟩
      (12288000 / 48000) = true ∧
    (0 : Int) ≤ (mclk_div_q ⟨25000000, 12288000, 0, .i2s, true, 0, 0⟩ :
      Int) - 1 ∧
    (csky_i2s_calc_mclk_div ⟨25000000, 12288000, 0, .i2s, true, 0, 0⟩
        48000 16).2 = .error .clockMismatchError := by decide

/-- C1 (amended): for every rate and master clock with mclk % rate = 0 and
the generation-specific ratio checks satisfied, when the candidate divider
src_clk / (2 * mclk) - 1 is non-negative the calculator returns it exactly
when the reconstructed clock src_clk / (2 * (div + 1)) equals mclk; when
the reconstructed clock differs the calculator fails with
`clockMismatchError`. -/
theorem calc_mclk_div_roundtrip_characterization (i2s : CskyI2s)
    (rate word_size : Nat)
    (hm : i2s.mclk % rate = 0)
    (hr : mclkRatioOk i2s (i2s.mclk / rate) = true)
    (hdiv : 0 ≤ (mclk_div_q i2s : Int) - 1) :
    (i2s.src_clk / (2 * mclk_div_q i2s) = i2s.mclk →
      (csky_i2s_calc_mclk_div i2s rate word_size).2 =
        .ok ((i2s.src_clk / (2 * i2s.mclk) : Nat) - 1 : Int)) ∧
    (i2s.src_clk / (2 * mclk_div_q i2s) ≠ i2s.mclk →
      (csky_i2s_calc_mclk_div i2s rate word_size).2 =
        .error .clockMismatchError) := by
  have hqq : i2s.src_clk / (2 * i2s.mclk) = mclk_div_q i2s := by
    rw [mclk_div_q, Nat.div_div_eq_div_mul]
  have ht : (2 * ((mclk_div_q i2s : Int) - 1 + 1)).toNat =
      2 * mclk_div_q i2s := by omega
  constructor <;> intro hrt
  · simp only [csky_i2s_calc_mclk_div, hm, hr]
    rw [if_neg (by simp), if_neg (by simp), if_pos hdiv, ht]
    rw [if_neg (by simp [hrt]), hqq]
  · simp only [csky_i2s_calc_mclk_div, hm, hr]
    rw [if_neg (by simp), if_neg (by simp), if_pos hdiv, ht]
    rw [if_pos hrt]

/-- Witness for C1 (amended): with src_clk = 24,576,000 Hz,
mclk = 12,288,000 Hz and rate = 48,000 Hz the divider 0 round-trips
exactly and is returned. -/
theorem calc_mclk_div_roundtrip_characterization_witness :
    (csky_i2s_calc_mclk_div ⟨24576000, 12288000, 0, .i2s, true, 0, 0⟩
        48000 16).2 = .ok ((24576000 / (2 * 12288000) : Nat) - 1 : Int) :=
  (calc_mclk_div_roundtrip_characterization
    ⟨24576000, 12288000, 0, .i2s, true, 0, 0⟩ 48000 16
    (by decide) (by decide) (by decide)).1 (by decide)

/-- C5 counterexample: with src_clk = 1,000,000 Hz, mclk = 12,288,000 Hz
and rate = 48,000 Hz the candidate divider is -1 (ratio checks pass); the
calculator accepts it without the round-trip check and returns it, but the
rate-configuration request does NOT proceed with it: `csky_i2s_set_clk_rate`
treats the negative return as an error (`if (mclk_div < 0) return -EINVAL`,
line 232) and aborts with no register writes. -/
theorem negative_mclk_div_rejected_by_request :
    (csky_i2s_calc_mclk_div ⟨1000000, 12288000, 0, .i2s, true, 0, 0⟩
        48000 16).2 = .ok (-1) ∧
    (csky_i2s_set_clk_rate ⟨1000000, 12288000, 0, .i2s, true, 0, 0⟩
        48000 16).2 = none := by decide

/-- C5 (amended): when the candidate divider is negative (and the ratio
checks pass on the in-request state), `csky_i2s_calc_mclk_div` accepts it
without the round-trip check and returns it, but the enclosing
`csky_i2s_set_clk_rate` request treats the negative value as an error and
aborts without writing any divider register. -/
theorem negative_mclk_div_policy (i2s : CskyI2s) (rate word_size : Nat)
    (hm : i2s.mclk % rate = 0)
    (hr : mclkRatioOk (requestState i2s rate) (i2s.mclk / rate) = true)
    (hdiv : (mclk_div_q i2s : Int) - 1 < 0) :
    (csky_i2s_calc_mclk_div (requestState i2s rate) rate word_size).2 =
      .ok ((mclk_div_q i2s : Int) - 1) ∧
    (csky_i2s_set_clk_rate i2s rate word_size).2 = none := by
  have h1 : (csky_i2s_calc_mclk_div (requestState i2s rate)
      rate word_size).2 = .ok ((mclk_div_q i2s : Int) - 1) := by
    simp only [csky_i2s_calc_mclk_div, requestState_mclk,
      mclk_div_q_requestState]
    rw [if_neg (by simp [hm]), if_neg (by simp [hr])]
    rw [if_neg (not_le.mpr hdiv)]
  refine ⟨h1, ?_⟩
  have h2 := h1
  simp only [requestState] at h2
  simp only [csky_i2s_set_clk_rate, csky_i2s_calc_fs_div]
  norm_num
  rw [h2]
  simp [hdiv]

/-- Witness for C5 (amended): the concrete boundary input with
src_clk = 1,000,000 Hz and mclk = 12,288,000 Hz. -/
theorem negative_mclk_div_policy_witness :
    (csky_i2s_calc_mclk_div
        (requestState ⟨1000000, 12288000, 0, .i2s, true, 0, 0⟩ 48000)
        48000 16).2 =
      .ok ((mclk_div_q (⟨1000000, 12288000, 0, .i2s, true, 0, 0⟩ :
        CskyI2s) : Int) - 1) ∧
    (csky_i2s_set_clk_rate ⟨1000000, 12288000, 0, .i2s, true, 0, 0⟩
        48000 16).2 = none :=
  negative_mclk_div_policy ⟨1000000, 12288000, 0, .i2s, true, 0, 0⟩
    48000 16 (by decide) (by decide) (by decide)

/-- Projection fact: the in-request state keeps the source clock. -/
theorem requestState_src (i2s : CskyI2s) (rate : Nat) :
    (requestState i2s rate).src_clk = i2s.src_clk := rfl

/-- Characterization of `csky_i2s_set_clk_rate`: the final state is the one
produced by the mclk-divider calculator running on the in-request state,
and the register-write list exists exactly when both fallible calculators
return non-negative dividers (and, for v1.1, the sclk divider is
non-negative too). -/
theorem set_clk_rate_spec (i2s : CskyI2s) (rate word_size : Nat) :
    csky_i2s_set_clk_rate i2s rate word_size =
      ((csky_i2s_calc_mclk_div (requestState i2s rate)
          rate word_size).1,
        match (csky_i2s_calc_mclk_div (requestState i2s rate)
            rate word_size).2,
          csky_i2s_calc_refclk_div (requestState i2s rate) rate with
        | .ok mclk_div, .ok refclk_div =>
          if mclk_div < 0 then none
          else if (csky_i2s_calc_mclk_div (requestState i2s rate)
                rate word_size).1.has_mclk_sclk_div ∧
              csky_i2s_calc_sclk_div
                (csky_i2s_calc_mclk_div (requestState i2s rate)
                  rate word_size).1 < 0 then none
          else if refclk_div < 0 then none
          else
            some ([(Reg.div0, mclk_div), (Reg.div1, 17),
                   (Reg.div2, 31), (Reg.div3, refclk_div)] ++
              (if (csky_i2s_calc_mclk_div (requestState i2s rate)
                    rate word_size).1.has_mclk_sclk_div then
                [(Reg.div4, csky_i2s_calc_sclk_div
                  (csky_i2s_calc_mclk_div (requestState i2s rate)
                    rate word_size).1)]
               else []))
        | _, _ => none) := by
  have hsrc : (csky_i2s_calc_mclk_div (requestState i2s rate)
      rate word_size).1.src_clk = i2s.src_clk := by
    rcases calc_mclk_div_state (requestState i2s rate) rate word_size
      with h | h <;> rw [h] <;> rfl
  have href : csky_i2s_calc_refclk_div
      (csky_i2s_calc_mclk_div (requestState i2s rate)
        rate word_size).1 rate =
      csky_i2s_calc_refclk_div (requestState i2s rate) rate := by
    cases hc : refClkFor rate <;>
      simp [csky_i2s_calc_refclk_div, hc, hsrc, requestState_src]
  simp only [csky_i2s_set_clk_rate, csky_i2s_calc_fs_div,
    csky_i2s_calc_spdifclk_div]
  norm_num
  rw [show ({ i2s with sample_rate := rate, sclk_fs_divider := 64 } :
    CskyI2s) = requestState i2s rate from rfl]
  rw [href]
  cases hm2 : (csky_i2s_calc_mclk_div (requestState i2s rate)
      rate word_size).2 with
  | error e => simp
  | ok d =>
    cases hr2 : csky_i2s_calc_refclk_div (requestState i2s rate) rate with
    | error e => simp [hr2]
    | ok rd =>
      split <;> (try split) <;> (try split) <;> (try split) <;>
          (try split) <;>
        first
          | rfl
          | simp_all

/-- When the mclk-divider calculator returns a divider (no error), both of
its checks passed on the state it was given. -/
theorem calc_mclk_div_ok_implies (i2s : CskyI2s) (rate word_size : Nat)
    (d : Int)
    (h : (csky_i2s_calc_mclk_div i2s rate word_size).2 = .ok d) :
    i2s.mclk % rate = 0 ∧ mclkRatioOk i2s (i2s.mclk / rate) = true := by
  by_cases h1 : i2s.mclk % rate = 0
  · by_cases h2 : mclkRatioOk i2s (i2s.mclk / rate) = true
    · exact ⟨h1, h2⟩
    · exfalso
      simp [csky_i2s_calc_mclk_div, h1, h2] at h
  · exfalso
    simp [csky_i2s_calc_mclk_div, h1] at h

/-- The mclk-divider calculator never changes the generation flag. -/
theorem calc_state_has (i2s : CskyI2s) (rate word_size : Nat) :
    (csky_i2s_calc_mclk_div (requestState i2s rate)
      rate word_size).1.has_mclk_sclk_div = i2s.has_mclk_sclk_div := by
  rcases calc_mclk_div_state (requestState i2s rate) rate word_size
    with h | h <;> rw [h] <;> rfl

/-- C6: whenever the mclk-divider or reference-clock calculator fails, the
whole rate-configuration request aborts with no divider register write;
on success the write list holds exactly the computed divider values for
DIV0 (mclk), DIV1 (spdif, 17), DIV2 (fs, 31), DIV3 (refclk) and, for
v1.1 only, DIV4 (sclk). -/
theorem set_clk_rate_write_policy (i2s : CskyI2s) (rate word_size : Nat) :
    ((∃ e, (csky_i2s_calc_mclk_div (requestState i2s rate)
        rate word_size).2 = .error e) ∨
     (∃ e, csky_i2s_calc_refclk_div (requestState i2s rate) rate =
        .error e) →
      (csky_i2s_set_clk_rate i2s rate word_size).2 = none) ∧
    (∀ ws, (csky_i2s_set_clk_rate i2s rate word_size).2 = some ws →
      ∃ mclk_div refclk_div,
        (csky_i2s_calc_mclk_div (requestState i2s rate)
          rate word_size).2 = .ok mclk_div ∧
        csky_i2s_calc_refclk_div (requestState i2s rate) rate =
          .ok refclk_div ∧
        ws = [(Reg.div0, mclk_div), (Reg.div1, 17), (Reg.div2, 31),
              (Reg.div3, refclk_div)] ++
          (if i2s.has_mclk_sclk_div then
            [(Reg.div4, csky_i2s_calc_sclk_div
              (csky_i2s_calc_mclk_div (requestState i2s rate)
                rate word_size).1)]
           else [])) := by
  rw [set_clk_rate_spec]
  constructor
  · rintro (⟨e, he⟩ | ⟨e, he⟩)
    · simp [he]
    · cases hm2 : (csky_i2s_calc_mclk_div (requestState i2s rate)
        rate word_size).2 <;> simp [he, hm2]
  · intro ws hws
    revert hws
    cases hm2 : (csky_i2s_calc_mclk_div (requestState i2s rate)
        rate word_size).2 with
    | error e => simp
    | ok md =>
      cases hr2 : csky_i2s_calc_refclk_div (requestState i2s rate)
          rate with
      | error e => simp
      | ok rd =>
        simp only []
        split <;> (try split) <;> (try split) <;> simp
        intro hws
        rw [← hws, calc_state_has]

/-- Witness for C6: a request whose mclk-divider calculator fails (mclk
not a multiple of the rate) performs no register write. -/
theorem set_clk_rate_write_policy_witness :
    (csky_i2s_set_clk_rate ⟨24576000, 10000000, 0, .i2s, true, 0, 0⟩
        48000 16).2 = none :=
  (set_clk_rate_write_policy ⟨24576000, 10000000, 0, .i2s, true, 0, 0⟩
    48000 16).1 (Or.inl ⟨.clockRatioError, by decide⟩)

/-- C9: inside a request, `csky_i2s_calc_fs_div` fixes sclk_fs_divider to
64 before the mclk ratio check runs, so a v1 request can only succeed
when mclk / rate is exactly 512 (I2S or left-justified format) or 256
(right-justified format), regardless of the sclk_fs_divider value the
state held before the call. -/
theorem set_clk_rate_v1_success_ratio (i2s : CskyI2s)
    (rate word_size : Nat)
    (hgen : i2s.has_mclk_sclk_div = false)
    (hs : (csky_i2s_set_clk_rate i2s rate word_size).2.isSome = true) :
    i2s.mclk % rate = 0 ∧
    i2s.mclk / rate = (if i2s.audio_fmt = .right_j then 256 else 512) := by
  rw [set_clk_rate_spec] at hs
  cases hm2 : (csky_i2s_calc_mclk_div (requestState i2s rate)
      rate word_size).2 with
  | error e => simp [hm2] at hs
  | ok md =>
    have ⟨hm, hr⟩ := calc_mclk_div_ok_implies _ rate word_size md hm2
    rw [requestState_mclk] at hm hr
    refine ⟨hm, ?_⟩
    simp only [mclkRatioOk, requestState, hgen] at hr
    cases hfmt : i2s.audio_fmt <;> simp [hfmt] at hr <;> simp [hfmt, hr]

/-- Witness for C9: a successful v1 request (sclk_fs_divider was 7 before
the call) forces mclk / rate = 512 in I2S format. -/
theorem set_clk_rate_v1_success_ratio_witness :
    (24576000 % 48000 = 0) ∧
    24576000 / 48000 =
      (if AudioFmt.i2s = AudioFmt.right_j then 256 else 512) :=
  set_clk_rate_v1_success_ratio ⟨49152000, 24576000, 0, .i2s, false, 0, 7⟩
    48000 16 rfl (by decide)

/-- C10: a failing request is not atomic on the driver state: it still
overwrites sample_rate with the requested rate and sclk_fs_divider with 64,
and on failures detected after the ratio checks it also overwrites
mclk_fs_divider with mclk / rate; the remaining fields (and, per C6, the
divider registers) are left unchanged. -/
theorem set_clk_rate_state_effects (i2s : CskyI2s) (rate word_size : Nat)
    (hf : (csky_i2s_set_clk_rate i2s rate word_size).2 = none) :
    (csky_i2s_set_clk_rate i2s rate word_size).1.sample_rate = rate ∧
    (csky_i2s_set_clk_rate i2s rate word_size).1.sclk_fs_divider = 64 ∧
    (csky_i2s_set_clk_rate i2s rate word_size).1.src_clk = i2s.src_clk ∧
    (csky_i2s_set_clk_rate i2s rate word_size).1.mclk = i2s.mclk ∧
    (csky_i2s_set_clk_rate i2s rate word_size).1.audio_fmt =
      i2s.audio_fmt ∧
    (csky_i2s_set_clk_rate i2s rate word_size).1.has_mclk_sclk_div =
      i2s.has_mclk_sclk_div ∧
    (i2s.mclk % rate = 0 →
      mclkRatioOk (requestState i2s rate) (i2s.mclk / rate) = true →
      (csky_i2s_set_clk_rate i2s rate word_size).1.mclk_fs_divider =
        i2s.mclk / rate) := by
  have hst : (csky_i2s_set_clk_rate i2s rate word_size).1 =
      (csky_i2s_calc_mclk_div (requestState i2s rate)
        rate word_size).1 := by
    rw [set_clk_rate_spec]
  rw [hst]
  refine ⟨?_, ?_, ?_, ?_, ?_, ?_, ?_⟩
  · rcases calc_mclk_div_state (requestState i2s rate) rate word_size
      with h | h <;> rw [h] <;> rfl
  · rcases calc_mclk_div_state (requestState i2s rate) rate word_size
      with h | h <;> rw [h] <;> rfl
  · rcases calc_mclk_div_state (requestState i2s rate) rate word_size
      with h | h <;> rw [h] <;> rfl
  · rcases calc_mclk_div_state (requestState i2s rate) rate word_size
      with h | h <;> rw [h] <;> rfl
  · rcases calc_mclk_div_state (requestState i2s rate) rate word_size
      with h | h <;> rw [h] <;> rfl
  · rcases calc_mclk_div_state (requestState i2s rate) rate word_size
      with h | h <;> rw [h] <;> rfl
  · intro hm hr
    rw [calc_mclk_div_state_pass (requestState i2s rate) rate word_size
      (by rw [requestState_mclk]; exact hm) hr]
    rfl

/-- Witness for C10: a request failing with a clock mismatch (detected
after the ratio checks) has still overwritten sample_rate,
sclk_fs_divider and mclk_fs_divider. -/
theorem set_clk_rate_state_effects_witness :
    (csky_i2s_set_clk_rate ⟨25000000, 12288000, 0, .i2s, true, 0, 0⟩
        48000 16).1.sample_rate = 48000 ∧
    (csky_i2s_set_clk_rate ⟨25000000, 12288000, 0, .i2s, true, 0, 0⟩
        48000 16).1.sclk_fs_divider = 64 ∧
    (csky_i2s_set_clk_rate ⟨25000000, 12288000, 0, .i2s, true, 0, 0⟩
        48000 16).1.src_clk = 25000000 ∧
    (csky_i2s_set_clk_rate ⟨25000000, 12288000, 0, .i2s, true, 0, 0⟩
        48000 16).1.mclk = 12288000 ∧
    (csky_i2s_set_clk_rate ⟨25000000, 12288000, 0, .i2s, true, 0, 0⟩
        48000 16).1.audio_fmt = .i2s ∧
    (csky_i2s_set_clk_rate ⟨25000000, 12288000, 0, .i2s, true, 0, 0⟩
        48000 16).1.has_mclk_sclk_div = true ∧
    (csky_i2s_set_clk_rate ⟨25000000, 12288000, 0, .i2s, true, 0, 0⟩
        48000 16).1.mclk_fs_divider = 12288000 / 48000 := by
  have h := set_clk_rate_state_effects
    ⟨25000000, 12288000, 0, .i2s, true, 0, 0⟩ 48000 16 (by decide)
  exact ⟨h.1, h.2.1, h.2.2.1, h.2.2.2.1, h.2.2.2.2.1, h.2.2.2.2.2.1,
    h.2.2.2.2.2.2 (by decide) (by decide)⟩
